import Mathlib

set_option maxHeartbeats 1000000
set_option maxRecDepth 4000

namespace SndCaen

/-- Runtime values exchanged with the external hardware library.  Python is
dynamically typed; the channel parameters handled here are ints, booleans,
strings or lists of ints.  Numeric configuration values are modelled as
integers (exact arithmetic). -/
inductive PyVal : Type where
  | int : Int → PyVal
  | bool : Bool → PyVal
  | str : String → PyVal
  | list : List Int → PyVal
  deriving DecidableEq

/-- Python exceptions the embedded code can raise: `KeyError` (with the
missing key), `IndexError` from list indexing, `TypeError` from iterating a
non-iterable. -/
inductive Err : Type where
  | keyError : String → Err
  | indexError : Err
  | typeError : Err
  deriving DecidableEq

/-- Observable effects of the manager: calls into the hardware-access
library and printed output.  `fileWrite` is included so that the absence of
writes to any persistent store is expressible; no method ever emits it. -/
inductive Event : Type where
  | setParam : Nat → Int → Int → String → PyVal → Event
  | getParam : Nat → Int → Int → String → Event
  | getParamProp : Nat → Int → Int → String → String → Event
  | chanInfo : Nat → Int → Int → Event
  | initSys : Nat → Nat → String → String → String → Event
  | getCrateMap : Nat → Event
  | print : String → Event
  | fileWrite : String → String → Event
  deriving DecidableEq

/-- `true` for the effects the class is allowed to have: hardware-library
calls and printed output; `false` only for a write to a persistent store. -/
def Event.externalB : Event → Bool
  | Event.fileWrite _ _ => false
  | _ => true

/-- One entry of a TOML table (`config['board'][daq]` or
`config['bias'][daq]`): the fields the manager reads.  A `none` field
models an absent key, whose lookup raises `KeyError`. -/
structure Entry : Type where
  crate : Option Int
  board : Option Int
  channel : Option Int
  v_offset_tofpet : Option Int
  v_bd : Option Int
  v : Option Int
  ov : Option Int
  deriving DecidableEq

/-- One entry of `config['crates']`. -/
structure CrateConf : Type where
  module : String
  linktype : String
  address : String
  username : String
  password : String
  deriving DecidableEq

/-- A TOML table section: an insertion-ordered association list of entries,
as Python dicts preserve insertion order. -/
abbrev ConfigSection : Type := List (String × Entry)

def ConfigSection.lookup (s : ConfigSection) (k : String) : Option Entry :=
  match List.find? (fun p => p.1 == k) s with
  | some p => some p.2
  | none => none

def ConfigSection.keys (s : ConfigSection) : List String :=
  List.map Prod.fst s

/-- The parsed TOML configuration: the crate list plus the two per-channel
mapping sections the class reads. -/
structure Config : Type where
  crates : List CrateConf
  board : ConfigSection
  bias : ConfigSection
  deriving DecidableEq

/-- The state of a `SndCaenManager` instance: exactly the attributes set in
`__init__` (`self.config`, `self.handles`, `self.crates_maps`); crate maps
and handles are abstract values. -/
structure State : Type where
  config : Config
  handles : List Nat
  crates_maps : List Nat
  deriving DecidableEq

/-- `self.config[mode]` for the table sections the class addresses by
`mode` (`'board'` for LV, `'bias'` for HV); any other key raises
`KeyError`. -/
def Config.sectionOf (cfg : Config) (mode : String) : Except Err ConfigSection :=
  if mode = "board" then Except.ok cfg.board
  else if mode = "bias" then Except.ok cfg.bias
  else Except.error (Err.keyError mode)

/-- Python dict lookup: `KeyError k` when the key is absent. -/
def keyE {α : Type} (o : Option α) (k : String) : Except Err α :=
  match o with
  | some a => Except.ok a
  | none => Except.error (Err.keyError k)

/-- Sequencing of fallible expressions: an exception propagates. -/
def bindE {α β : Type} (x : Except Err α) (f : α → Except Err β) : Except Err β :=
  match x with
  | Except.error e => Except.error e
  | Except.ok a => f a

/-- Python list indexing `hs[i]`: negative indices count from the end,
out-of-range raises `IndexError`. -/
def handleAt (hs : List Nat) (i : Int) : Except Err Nat :=
  let j : Int := if i < 0 then i + Int.ofNat hs.length else i
  if 0 ≤ j then
    match hs[j.toNat]? with
    | some h => Except.ok h
    | none => Except.error Err.indexError
  else Except.error Err.indexError

/-- Oracle for the values the external library returns:
`get_channel_parameter`, `get_channel_parameter_property` and
`channel_info`. -/
structure Env : Type where
  get : Nat → Int → Int → String → PyVal
  getProp : Nat → Int → Int → String → String → PyVal
  info : Nat → Int → Int → List String

/-- Result of running a method body: the emitted events, and the uncaught
exception when one was raised (events before the raise are kept). -/
abbrev Res : Type := List Event × Option Err

def okRes (evs : List Event) : Res := (evs, none)

def errRes (e : Err) : Res := ([], some e)

def bindRes {α : Type} (x : Except Err α) (f : α → Res) : Res :=
  match x with
  | Except.error e => ([], some e)
  | Except.ok a => f a

/-- Sequencing: if the first part raised, the second never runs. -/
def seqRes (a b : Res) : Res :=
  match a.2 with
  | some _ => a
  | none => (a.1 ++ b.1, b.2)

/-- A `for` loop over names: an uncaught exception aborts the loop. -/
def runList (f : String → Res) : List String → Res
  | [] => ([], none)
  | d :: ds => seqRes (f d) (runList f ds)

/-- `SndCaenManager.getConfigProperty`, lines 51-58: reads
`config[mode][daq]['crate']`, `...['board']`, `...['channel']` and returns
the triple. -/
def getConfigProperty (cfg : Config) (daq : String) (mode : String) :
    Except Err (Int × Int × Int) :=
  bindE (Config.sectionOf cfg mode) (fun sec =>
    bindE (keyE (ConfigSection.lookup sec daq) daq) (fun e1 =>
      bindE (keyE e1.crate ("crate")) (fun c =>
        bindE (keyE (ConfigSection.lookup sec daq) daq) (fun e2 =>
          bindE (keyE e2.board ("board")) (fun b =>
            bindE (keyE (ConfigSection.lookup sec daq) daq) (fun e3 =>
              bindE (keyE e3.channel ("channel")) (fun ch =>
                Except.ok (c, b, ch))))))))

def moduleMissingMsg (daq : String) : String :=
  "Module " ++ daq ++ " does not exist"

/-- Loop body shared by both branches of `switchLV` (lines 68-71 and
75-78): resolve the triple and set `'Pw'`. -/
def switchLV_body (st : State) (pw : Bool) (daq : String) : Res :=
  bindRes (getConfigProperty st.config daq ("board")) (fun t =>
    bindRes (handleAt st.handles t.1) (fun h =>
      okRes [Event.setParam h t.2.1 t.2.2 ("Pw") (PyVal.bool pw)]))

/-- `SndCaenManager.switchLV`, lines 60-80. -/
def switchLV (st : State) (pw : Bool) (daqs : Option (List String)) : Res :=
  match daqs with
  | none =>
      runList (fun daq => if daq = "default" then okRes [] else switchLV_body st pw daq)
        (ConfigSection.keys st.config.board)
  | some ds =>
      runList (fun daq =>
        if (ConfigSection.lookup st.config.board daq).isSome then switchLV_body st pw daq
        else okRes [Event.print (moduleMissingMsg daq)]) ds

/-- The `try` block of `override_OV` (lines 96-98 / 109-110):
`OV + config['bias'][daq]['v_offset_tofpet'] + config['bias'][daq]['v_bd']`. -/
def tryV (cfg : Config) (OV : Int) (daq : String) : Except Err Int :=
  bindE (keyE (ConfigSection.lookup cfg.bias daq) daq) (fun e1 =>
    bindE (keyE e1.v_offset_tofpet ("v_offset_tofpet")) (fun voff =>
      bindE (keyE (ConfigSection.lookup cfg.bias daq) daq) (fun e2 =>
        bindE (keyE e2.v_bd ("v_bd")) (fun vbd =>
          Except.ok (OV + voff + vbd)))))

/-- The `except KeyError` block of `override_OV` (lines 100-102 / 112-113):
`OV + config['bias']['default']['v_offset_tofpet'] + config['bias'][daq]['v_bd']`. -/
def fallbackV (cfg : Config) (OV : Int) (daq : String) : Except Err Int :=
  bindE (keyE (ConfigSection.lookup cfg.bias ("default")) ("default")) (fun d =>
    bindE (keyE d.v_offset_tofpet ("v_offset_tofpet")) (fun voff =>
      bindE (keyE (ConfigSection.lookup cfg.bias daq) daq) (fun e1 =>
        bindE (keyE e1.v_bd ("v_bd")) (fun vbd =>
          Except.ok (OV + voff + vbd)))))

/-- The `try`/`except KeyError` computation of `V` in `override_OV`; only a
`KeyError` from the `try` block is caught. -/
def computeV (cfg : Config) (OV : Int) (daq : String) : Except Err Int :=
  match tryV cfg OV daq with
  | Except.ok v => Except.ok v
  | Except.error (Err.keyError _) => fallbackV cfg OV daq
  | Except.error e => Except.error e

/-- Loop body shared by both branches of `override_OV` (lines 94-104 and
107-115): resolve the triple, compute `V`, set `'V0Set'`. -/
def override_OV_body (st : State) (OV : Int) (daq : String) : Res :=
  bindRes (getConfigProperty st.config daq ("bias")) (fun t =>
    bindRes (computeV st.config OV daq) (fun V =>
      bindRes (handleAt st.handles t.1) (fun h =>
        okRes [Event.setParam h t.2.1 t.2.2 ("V0Set") (PyVal.int V)])))

/-- `SndCaenManager.override_OV`, lines 82-115: with `daqs=None` every key
of `config['bias']` except `'default'`, otherwise the given list with no
membership guard. -/
def override_OV (st : State) (OV : Int) (daqs : Option (List String)) : Res :=
  match daqs with
  | none =>
      runList (fun daq => if daq = "default" then okRes [] else override_OV_body st OV daq)
        (ConfigSection.keys st.config.bias)
  | some ds => runList (override_OV_body st OV) ds

/-- `config['bias']['default']['ov']` as evaluated at line 134/153. -/
def defaultOv (cfg : Config) : Except Err Int :=
  bindE (keyE (ConfigSection.lookup cfg.bias ("default")) ("default")) (fun d =>
    keyE d.ov ("ov"))

/-- Loop body shared by both branches of `switchHV` (lines 125-140 and
144-159): dispatch on the mode string; an unrecognised mode does nothing. -/
def switchHV_body (st : State) (mode : String) (daq : String) : Res :=
  bindRes (getConfigProperty st.config daq ("bias")) (fun t =>
    if mode = "off" then
      bindRes (handleAt st.handles t.1) (fun h =>
        okRes [Event.setParam h t.2.1 t.2.2 ("Pw") (PyVal.bool false)])
    else if mode = "idle" then
      seqRes (override_OV st (-10) (some [daq]))
        (bindRes (handleAt st.handles t.1) (fun h =>
          okRes [Event.setParam h t.2.1 t.2.2 ("Pw") (PyVal.bool true)]))
    else if mode = "operation" then
      bindRes (defaultOv st.config) (fun ov =>
        seqRes (override_OV st ov (some [daq]))
          (bindRes (handleAt st.handles t.1) (fun h =>
            okRes [Event.setParam h t.2.1 t.2.2 ("Pw") (PyVal.bool true)])))
    else if mode = "on" then
      bindRes (handleAt st.handles t.1) (fun h =>
        okRes [Event.setParam h t.2.1 t.2.2 ("Pw") (PyVal.bool true)])
    else okRes [])

/-- `SndCaenManager.switchHV`, lines 117-159: with `daqs=None` every key of
`config['bias']` except `'default'`; with an explicit list, names absent
from `config['bias']` are silently skipped. -/
def switchHV (st : State) (mode : String) (daqs : Option (List String)) : Res :=
  match daqs with
  | none =>
      runList (fun daq => if daq = "default" then okRes [] else switchHV_body st mode daq)
        (ConfigSection.keys st.config.bias)
  | some ds =>
      runList (fun daq =>
        if (ConfigSection.lookup st.config.bias daq).isSome then switchHV_body st mode daq
        else okRes []) ds

/-- Loop body shared by both branches of `showChannelInfo` (lines 169-178
and 181-187). -/
def showChannelInfo_body (st : State) (env : Env) (mode : String) (daq : String) : Res :=
  bindRes (getConfigProperty st.config daq mode) (fun t =>
    bindRes (handleAt st.handles t.1) (fun h =>
      okRes (Event.chanInfo h t.2.1 t.2.2 ::
        Event.print ("DAQ " ++ daq ++ " channel information:") ::
        Event.print ("crate = " ++ toString t.1 ++ ", board = " ++ toString t.2.1 ++
          ", channel = " ++ toString t.2.2) ::
        (List.map Event.print (env.info h t.2.1 t.2.2) ++ [Event.print ("^\n")]))))

/-- `SndCaenManager.showChannelInfo`, lines 161-187. -/
def showChannelInfo (st : State) (env : Env) (mode : String)
    (daqs : Option (List String)) : Res :=
  match daqs with
  | none =>
      bindRes (Config.sectionOf st.config mode) (fun sec =>
        runList (fun daq => if daq = "default" then okRes [] else showChannelInfo_body st env mode daq)
          (ConfigSection.keys sec))
  | some ds => runList (showChannelInfo_body st env mode) ds

/-- How Python's f-string renders the values appearing in printed output. -/
def PyVal.pstr : PyVal → String
  | PyVal.int n => toString n
  | PyVal.bool b => if b then "True" else "False"
  | PyVal.str s => s
  | PyVal.list l => toString l

/-- Loop body shared by both branches of `showChannelParameter`
(lines 197-204 and 207-214). -/
def showChannelParameter_body (st : State) (env : Env) (parameter : String)
    (mode : String) (daq : String) : Res :=
  bindRes (getConfigProperty st.config daq mode) (fun t =>
    bindRes (handleAt st.handles t.1) (fun h =>
      okRes [Event.getParam h t.2.1 t.2.2 parameter,
        Event.getParamProp h t.2.1 t.2.2 parameter ("Unit"),
        Event.print ("DAQ " ++ daq ++ " parameter " ++ parameter ++ " information : " ++
          PyVal.pstr (env.get h t.2.1 t.2.2 parameter) ++ " " ++
          PyVal.pstr (env.getProp h t.2.1 t.2.2 parameter ("Unit")))]))

/-- `SndCaenManager.showChannelParameter`, lines 189-214. -/
def showChannelParameter (st : State) (env : Env) (parameter : String)
    (mode : String) (daqs : Option (List String)) : Res :=
  match daqs with
  | none =>
      bindRes (Config.sectionOf st.config mode) (fun sec =>
        runList (fun daq => if daq = "default" then okRes []
          else showChannelParameter_body st env parameter mode daq)
          (ConfigSection.keys sec))
  | some ds => runList (showChannelParameter_body st env parameter mode) ds

/-- `SndCaenManager.getChannelParameter`, lines 216-220: resolve the triple
and return the external library's value unchanged. -/
def getChannelParameter (st : State) (env : Env) (parameter : String)
    (mode : String) (daq : String) : List Event × Except Err PyVal :=
  match getConfigProperty st.config daq mode with
  | Except.error e => ([], Except.error e)
  | Except.ok t =>
      match handleAt st.handles t.1 with
      | Except.error e => ([], Except.error e)
      | Except.ok h =>
          ([Event.getParam h t.2.1 t.2.2 parameter],
            Except.ok (env.get h t.2.1 t.2.2 parameter))

/-- `config['board']['default']['v']` as evaluated at line 236/246. -/
def defaultLv (cfg : Config) : Except Err Int :=
  bindE (keyE (ConfigSection.lookup cfg.board ("default")) ("default")) (fun d =>
    keyE d.v ("v"))

/-- Loop body shared by both branches of `setLV` (lines 231-239 and
242-249). -/
def setLV_body (st : State) (v : Option Int) (daq : String) : Res :=
  bindRes (getConfigProperty st.config daq ("board")) (fun t =>
    match v with
    | none =>
        bindRes (handleAt st.handles t.1) (fun h =>
          bindRes (defaultLv st.config) (fun dv =>
            okRes [Event.setParam h t.2.1 t.2.2 ("V0Set") (PyVal.int dv)]))
    | some vv =>
        bindRes (handleAt st.handles t.1) (fun h =>
          okRes [Event.setParam h t.2.1 t.2.2 ("V0Set") (PyVal.int vv)]))

/-- `SndCaenManager.setLV`, lines 222-249. -/
def setLV (st : State) (v : Option Int) (daqs : Option (List String)) : Res :=
  match daqs with
  | none =>
      runList (fun daq => if daq = "default" then okRes [] else setLV_body st v daq)
        (ConfigSection.keys st.config.board)
  | some ds => runList (setLV_body st v) ds

/-- The module-level `MESSAGES` table, lines 12-19. -/
def MESSAGES : List ((Nat × Int) × String) :=
  [((0, 1), "The board {daq} is in power-fail status"),
   ((1, 2), "The board {daq} is in power-fail status"),
   ((2, 1), "The board {daq} has a calibration error on HV"),
   ((3, 1), "The board {daq} has a calibration error on temperature"),
   ((4, 1), "The board {daq} is in under-temperature status"),
   ((5, 1), "The board {daq} is in over-temperature status")]

/-- `MESSAGES.get((i, v), None)`. -/
def lookupMsg (k : Nat × Int) : Option String :=
  match List.find? (fun p => p.1 == k) MESSAGES with
  | some p => some p.2
  | none => none

/-- Substitution of the `{daq}` placeholder into a message, scanning left
to right; `{daq}` is the only placeholder appearing in `MESSAGES`. -/
def replaceDaq (daq : List Char) : List Char → List Char
  | '\x7b' :: 'd' :: 'a' :: 'q' :: '\x7d' :: rest => daq ++ replaceDaq daq rest
  | c :: rest => c :: replaceDaq daq rest
  | [] => []

/-- `msg.format(daq=daq)`. -/
def fmtDaq (msg daq : String) : String := String.mk (replaceDaq daq.data msg.data)

/-- The events one position of the status list contributes: the table
message when `(i, v)` is a key of `MESSAGES`, nothing otherwise. -/
def msgEvents (daq : String) (k : Nat × Int) : List Event :=
  match lookupMsg k with
  | some msg => [Event.print (fmtDaq msg daq)]
  | none => []

/-- The module-level helper `_check_status`, lines 22-29: walk the list
with a counter, printing the table message of each `(index, value)` pair
that is a key of `MESSAGES`. -/
def check_status_loop (daq : String) : Nat → List Int → List Event
  | _, [] => []
  | c, el :: rest => msgEvents daq (c, el) ++ check_status_loop daq (c + 1) rest

def workingMsg (daq : String) : String :=
  "The board " ++ daq ++ " is working correctly."

/-- Dispatch on the retrieved `'Status'` value (lines 263-267 / 273-276):
`type(v) == int` prints the working message (the `daqs=None` branch also
prints the value); a list goes through `_check_status`; iterating a string
matches no integer-keyed entry so prints nothing; a bool is not iterable,
so `_check_status` raises `TypeError`. -/
def statusRes (daq : String) (withValue : Bool) (v : PyVal) : Res :=
  match v with
  | PyVal.int n =>
      okRes (Event.print (workingMsg daq) ::
        (if withValue then [Event.print (toString n)] else []))
  | PyVal.list l => okRes (check_status_loop daq 0 l)
  | PyVal.str _ => okRes []
  | PyVal.bool _ => errRes Err.typeError

/-- Loop body of `checkStatus` (lines 260-267 and 270-276); `withValue`
distinguishes the `daqs=None` branch, which also prints the int value. -/
def checkStatus_body (st : State) (env : Env) (withValue : Bool)
    (mode : String) (daq : String) : Res :=
  bindRes (getConfigProperty st.config daq mode) (fun t =>
    bindRes (handleAt st.handles t.1) (fun h =>
      seqRes (okRes [Event.getParam h t.2.1 t.2.2 ("Status")])
        (statusRes daq withValue (env.get h t.2.1 t.2.2 ("Status")))))

/-- `SndCaenManager.checkStatus`, lines 251-276. -/
def checkStatus (st : State) (env : Env) (mode : String)
    (daqs : Option (List String)) : Res :=
  match daqs with
  | none =>
      bindRes (Config.sectionOf st.config mode) (fun sec =>
        runList (fun daq => if daq = "default" then okRes []
          else checkStatus_body st env true mode daq)
          (ConfigSection.keys sec))
  | some ds => runList (checkStatus_body st env false mode) ds

/-- Oracle for the constructor's external calls: the enum tables
`CAENHV_SYSTEM_TYPE[...]` and `LinkType[...]` (a missing name raises
`KeyError`), `init_system` (the handle returned by the i-th call), and
`get_crate_map` (a crate map, or a raised `CAENHVError` message). -/
structure InitEnv : Type where
  sysType : String → Option Nat
  linkType : String → Option Nat
  initSystem : Nat → Nat → Nat → String → String → String → Nat
  crateMap : Nat → Except String Nat

/-- The first `for` loop of `__init__`, lines 37-42: convert the enum
names, call `init_system`, append the handle.  A `KeyError` from an enum
lookup propagates (it is outside the `try`). -/
def initLoop (env : InitEnv) : Nat → List CrateConf → List Event × Except Err (List Nat)
  | _, [] => ([], Except.ok [])
  | i, c :: rest =>
      match env.sysType c.module with
      | none => ([], Except.error (Err.keyError c.module))
      | some s =>
          match env.linkType c.linktype with
          | none => ([], Except.error (Err.keyError c.linktype))
          | some l =>
              let h := env.initSystem i s l c.address c.username c.password
              let r := initLoop env (i + 1) rest
              (Event.initSys s l c.address c.username c.password :: r.1,
                Except.map (fun hs => h :: hs) r.2)

/-- The second `for` loop of `__init__`, lines 46-47, run inside the `try`:
one `get_crate_map` call per handle; the first `CAENHVError` aborts the
loop, keeping the maps retrieved so far. -/
def mapLoop (env : InitEnv) : List Nat → List Event × List Nat × Option String
  | [] => ([], [], none)
  | h :: rest =>
      match env.crateMap h with
      | Except.error msg => ([Event.getCrateMap h], [], some msg)
      | Except.ok m =>
          let r := mapLoop env rest
          (Event.getCrateMap h :: r.1, m :: r.2.1, r.2.2)

def gotErrorMsg (msg : String) : String :=
  "Got error: " ++ msg ++ "\nExiting ..."

/-- `SndCaenManager.__init__`, lines 33-49, applied to the already-parsed
configuration: build the handles, then the crate maps; a `CAENHVError`
while building the maps is caught and printed, and construction still
completes. -/
def initManager (env : InitEnv) (cfg : Config) : List Event × Except Err State :=
  match initLoop env 0 cfg.crates with
  | (evs, Except.error e) => (evs, Except.error e)
  | (evs, Except.ok handles) =>
      let r := mapLoop env handles
      match r.2.2 with
      | none => (evs ++ r.1, Except.ok (State.mk cfg handles r.2.1))
      | some msg =>
          (evs ++ r.1 ++ [Event.print (gotErrorMsg msg)],
            Except.ok (State.mk cfg handles r.2.1))

/-- The `init_system` call expected for each entry of `config['crates']`,
in order, with that entry's converted module and linktype and its address,
username and password (`i` is the index of the first entry). -/
def initCalls (env : InitEnv) : Nat → List CrateConf → List Event
  | _, [] => []
  | i, c :: rest =>
      Event.initSys ((env.sysType c.module).getD 0) ((env.linkType c.linktype).getD 0)
        c.address c.username c.password :: initCalls env (i + 1) rest

/-- The handle `init_system` returns for each entry, in order. -/
def initHandles (env : InitEnv) : Nat → List CrateConf → List Nat
  | _, [] => []
  | i, c :: rest =>
      env.initSystem i ((env.sysType c.module).getD 0) ((env.linkType c.linktype).getD 0)
        c.address c.username c.password :: initHandles env (i + 1) rest

/-- The crate map `get_crate_map` returns for each handle, in order. -/
def mapsOf (env : InitEnv) (hs : List Nat) : List Nat :=
  List.map (fun h => match env.crateMap h with
    | Except.ok m => m
    | Except.error _ => 0) hs

/-- An invocation of one public method other than `__init__`. -/
inductive MethodCall : Type where
  | switchLV : Bool → Option (List String) → MethodCall
  | override_OV : Int → Option (List String) → MethodCall
  | switchHV : String → Option (List String) → MethodCall
  | showChannelInfo : String → Option (List String) → MethodCall
  | showChannelParameter : String → String → Option (List String) → MethodCall
  | getChannelParameter : String → String → String → MethodCall
  | setLV : Option Int → Option (List String) → MethodCall
  | checkStatus : String → Option (List String) → MethodCall

/-- Run one public method: the emitted events, the uncaught exception if
any, and the instance state afterwards.  No method body contains an
assignment to `self.config`, `self.handles` or `self.crates_maps`, so each
branch returns the incoming state. -/
def step (st : State) (env : Env) (c : MethodCall) : List Event × Option Err × State :=
  match c with
  | MethodCall.switchLV pw daqs =>
      let r := switchLV st pw daqs
      (r.1, r.2, st)
  | MethodCall.override_OV OV daqs =>
      let r := override_OV st OV daqs
      (r.1, r.2, st)
  | MethodCall.switchHV mode daqs =>
      let r := switchHV st mode daqs
      (r.1, r.2, st)
  | MethodCall.showChannelInfo mode daqs =>
      let r := showChannelInfo st env mode daqs
      (r.1, r.2, st)
  | MethodCall.showChannelParameter p mode daqs =>
      let r := showChannelParameter st env p mode daqs
      (r.1, r.2, st)
  | MethodCall.getChannelParameter p mode daq =>
      let r := getChannelParameter st env p mode daq
      (r.1, (match r.2 with | Except.error e => some e | Except.ok _ => none), st)
  | MethodCall.setLV v daqs =>
      let r := setLV st v daqs
      (r.1, r.2, st)
  | MethodCall.checkStatus mode daqs =>
      let r := checkStatus st env mode daqs
      (r.1, r.2, st)

/-- Concrete test fixture: the `'m1x1'` HV entry. -/
def entM : Entry := Entry.mk (some 0) (some 1) (some 2) (some 3) (some 4) none none

/-- Concrete test fixture: the `'default'` HV entry. -/
def entDB : Entry := Entry.mk (some 0) (some 1) (some 3) (some 7) none none (some 3)

/-- Concrete test fixture: the `'m1x1'` LV entry. -/
def entL : Entry := Entry.mk (some 0) (some 5) (some 6) none none none none

/-- Concrete test fixture: the `'default'` LV entry. -/
def entDL : Entry := Entry.mk (some 0) (some 5) (some 7) none none (some 11) none

/-- Concrete test fixture: an HV entry without `v_offset_tofpet`. -/
def entN : Entry := Entry.mk (some 0) (some 8) (some 9) none (some 13) none none

def cfg0 : Config :=
  Config.mk [CrateConf.mk ("mod0") ("link0") ("addr0") ("user0") ("pass0")]
    [("default", entDL), ("m1x1", entL)]
    [("default", entDB), ("m1x1", entM), ("m2x1", entN)]

def st0 : State := State.mk cfg0 [5] [9]

def env0 : Env :=
  Env.mk (fun _ _ _ p => if p = "Status" then PyVal.list [1, 0] else PyVal.int 7)
    (fun _ _ _ _ _ => PyVal.str ("V")) (fun _ _ _ => ["i0", "i1"])

def ienv0 : InitEnv :=
  InitEnv.mk (fun s => if s = "mod0" then some 2 else none)
    (fun s => if s = "link0" then some 1 else none)
    (fun i _ _ _ _ _ => 40 + i)
    (fun h => if h = 41 then Except.error ("boom") else Except.ok (h + 100))

/-- Concrete test fixture: an init environment whose `get_crate_map` always
succeeds. -/
def ienvOk : InitEnv :=
  InitEnv.mk (fun s => if s = "mod0" then some 2 else none)
    (fun s => if s = "link0" then some 1 else none)
    (fun i _ _ _ _ _ => 40 + i)
    (fun h => Except.ok (h + 100))

/-- Concrete test fixture: a configuration with two crates, whose second
handle makes `get_crate_map` raise. -/
def cfg2 : Config :=
  Config.mk [CrateConf.mk ("mod0") ("link0") ("addr0") ("user0") ("pass0"),
      CrateConf.mk ("mod0") ("link0") ("addr1") ("user1") ("pass1")]
    [("default", entDL), ("m1x1", entL)]
    [("default", entDB), ("m1x1", entM)]

theorem seqRes_err {a : Res} {e : Err} (h : a.2 = some e) (b : Res) :
    seqRes a b = a := by
  simp [seqRes, h]

theorem seqRes_ok_left {a : Res} (h : a.2 = none) (b : Res) :
    seqRes a b = (a.1 ++ b.1, b.2) := by
  simp [seqRes, h]

theorem seqRes_okRes (evs : List Event) (b : Res) :
    seqRes (okRes evs) b = (evs ++ b.1, b.2) := by
  simp [seqRes, okRes]

theorem seqRes_nil_left (b : Res) : seqRes (([], none) : Res) b = b := by
  simp [seqRes]

theorem seqRes_nil_right (a : Res) : seqRes a (([], none) : Res) = a := by
  obtain ⟨evs, err⟩ := a
  cases err with
  | none => simp [seqRes]
  | some e => simp [seqRes]

theorem seqRes_okRes_nil_left (b : Res) : seqRes (okRes []) b = b := by
  simp [okRes, seqRes]

theorem seqRes_snd_left_none {a : Res} (h : a.2 = none) (b : Res) :
    (seqRes a b).2 = b.2 := by
  simp [seqRes, h]

theorem seqRes_assoc (a b c : Res) :
    seqRes (seqRes a b) c = seqRes a (seqRes b c) := by
  obtain ⟨ae, aerr⟩ := a
  cases aerr with
  | none =>
      obtain ⟨be, berr⟩ := b
      cases berr with
      | none => simp [seqRes]
      | some e => simp [seqRes]
  | some e => simp [seqRes]

theorem runList_singleton (f : String → Res) (d : String) :
    runList f [d] = f d := by
  simp [runList, seqRes_nil_right]

theorem runList_append (f : String → Res) (a b : List String) :
    runList f (a ++ b) = seqRes (runList f a) (runList f b) := by
  induction a with
  | nil => simp [runList, seqRes_nil_left]
  | cons d rest ih => simp [runList, ih, seqRes_assoc]

theorem runList_err_head {f : String → Res} {d : String} {e : Err}
    (h : f d = ([], some e)) (ds : List String) :
    runList f (d :: ds) = ([], some e) := by
  simp [runList, h, seqRes]

theorem runList_skip_default (f : String → Res) (ks : List String) :
    runList (fun d => if d = "default" then okRes [] else f d) ks
      = runList f (List.filter (fun d => ! (d == "default")) ks) := by
  induction ks with
  | nil => rfl
  | cons k rest ih =>
      by_cases hk : k = "default"
      · subst hk
        simpa [runList, seqRes_okRes_nil_left] using ih
      · have hk2 : (k == "default") = false := by
          simp [hk]
        simp [runList, List.filter, hk, hk2, ih]

/-- C1: for a daq and mode present in the configuration, `getConfigProperty`
returns exactly the stored `(crate, board, channel)` triple of
`config[mode][daq]`, with no transformation. -/
theorem C1_getConfigProperty_exact (cfg : Config) (daq mode : String)
    (sec : ConfigSection) (e : Entry) (c b ch : Int)
    (hsec : Config.sectionOf cfg mode = Except.ok sec)
    (he : ConfigSection.lookup sec daq = some e)
    (hc : e.crate = some c) (hb : e.board = some b) (hch : e.channel = some ch) :
    getConfigProperty cfg daq mode = Except.ok (c, b, ch) := by
  simp [getConfigProperty, bindE, hsec, he, hc, hb, hch, keyE]

theorem C1_witness :
    getConfigProperty cfg0 ("m1x1") ("bias") = Except.ok (0, 1, 2) :=
  C1_getConfigProperty_exact cfg0 ("m1x1") ("bias") cfg0.bias entM 0 1 2
    rfl rfl rfl rfl rfl

/-- C4: `getChannelParameter(parameter, mode, daq)` is a pure pass-through:
it issues one `get_channel_parameter` call on the handle selected by the
config-resolved crate index with the config-resolved board and channel, and
returns the external library's value unchanged. -/
theorem C4_getChannelParameter_passthrough (st : State) (env : Env)
    (parameter mode daq : String) (c b ch : Int) (h : Nat)
    (hcfg : getConfigProperty st.config daq mode = Except.ok (c, b, ch))
    (hh : handleAt st.handles c = Except.ok h) :
    getChannelParameter st env parameter mode daq
      = ([Event.getParam h b ch parameter], Except.ok (env.get h b ch parameter)) := by
  simp [getChannelParameter, hcfg, hh]

theorem C4_witness :
    getChannelParameter st0 env0 ("V0Set") ("bias") ("m1x1")
      = ([Event.getParam 5 1 2 ("V0Set")], Except.ok (PyVal.int 7)) :=
  C4_getChannelParameter_passthrough st0 env0 ("V0Set") ("bias") ("m1x1")
    0 1 2 5 rfl rfl

/-- C9: a daq name absent from `config[mode]` makes `getConfigProperty`
raise `KeyError(daq)`, and this `KeyError` propagates uncaught out of
`override_OV`, `setLV`, `showChannelInfo` and `checkStatus` when such a
name appears in an explicit daqs list (after any successfully processed
prefix); no default value is substituted. -/
theorem C9_missing_daq_keyerror (st : State) (env : Env) (daq : String)
    (hboard : ConfigSection.lookup st.config.board daq = none)
    (hbias : ConfigSection.lookup st.config.bias daq = none) :
    (getConfigProperty st.config daq ("board") = Except.error (Err.keyError daq)
      ∧ getConfigProperty st.config daq ("bias") = Except.error (Err.keyError daq))
    ∧ (∀ OV : Int, ∀ pre post : List String,
        (runList (override_OV_body st OV) pre).2 = none →
        (override_OV st OV (some (pre ++ daq :: post))).2 = some (Err.keyError daq))
    ∧ (∀ v : Option Int, ∀ pre post : List String,
        (runList (setLV_body st v) pre).2 = none →
        (setLV st v (some (pre ++ daq :: post))).2 = some (Err.keyError daq))
    ∧ (∀ mode : String, mode = "board" ∨ mode = "bias" →
        ∀ pre post : List String,
        (runList (showChannelInfo_body st env mode) pre).2 = none →
        (showChannelInfo st env mode (some (pre ++ daq :: post))).2
          = some (Err.keyError daq))
    ∧ (∀ mode : String, mode = "board" ∨ mode = "bias" →
        ∀ pre post : List String,
        (runList (checkStatus_body st env false mode) pre).2 = none →
        (checkStatus st env mode (some (pre ++ daq :: post))).2
          = some (Err.keyError daq)) := by
  have hgb : getConfigProperty st.config daq ("board")
      = Except.error (Err.keyError daq) := by
    simp [getConfigProperty, bindE, Config.sectionOf, hboard, keyE]
  have hgs : getConfigProperty st.config daq ("bias")
      = Except.error (Err.keyError daq) := by
    simp [getConfigProperty, bindE, Config.sectionOf, hbias, keyE]
  refine ⟨⟨hgb, hgs⟩, ?_, ?_, ?_, ?_⟩
  · intro OV pre post hpre
    have hbody : override_OV_body st OV daq = ([], some (Err.keyError daq)) := by
      simp [override_OV_body, hgs, bindRes]
    have : override_OV st OV (some (pre ++ daq :: post))
        = seqRes (runList (override_OV_body st OV) pre)
            (runList (override_OV_body st OV) (daq :: post)) := by
      simp [override_OV, runList_append]
    rw [this, seqRes_snd_left_none hpre,
      runList_err_head (f := override_OV_body st OV) hbody]
  · intro v pre post hpre
    have hbody : setLV_body st v daq = ([], some (Err.keyError daq)) := by
      simp [setLV_body, hgb, bindRes]
    have : setLV st v (some (pre ++ daq :: post))
        = seqRes (runList (setLV_body st v) pre)
            (runList (setLV_body st v) (daq :: post)) := by
      simp [setLV, runList_append]
    rw [this, seqRes_snd_left_none hpre,
      runList_err_head (f := setLV_body st v) hbody]
  · intro mode hmode pre post hpre
    have hg : getConfigProperty st.config daq mode
        = Except.error (Err.keyError daq) := by
      rcases hmode with hm | hm
      · rw [hm]; exact hgb
      · rw [hm]; exact hgs
    have hbody : showChannelInfo_body st env mode daq
        = ([], some (Err.keyError daq)) := by
      simp [showChannelInfo_body, hg, bindRes]
    have : showChannelInfo st env mode (some (pre ++ daq :: post))
        = seqRes (runList (showChannelInfo_body st env mode) pre)
            (runList (showChannelInfo_body st env mode) (daq :: post)) := by
      simp [showChannelInfo, runList_append]
    rw [this, seqRes_snd_left_none hpre,
      runList_err_head (f := showChannelInfo_body st env mode) hbody]
  · intro mode hmode pre post hpre
    have hg : getConfigProperty st.config daq mode
        = Except.error (Err.keyError daq) := by
      rcases hmode with hm | hm
      · rw [hm]; exact hgb
      · rw [hm]; exact hgs
    have hbody : checkStatus_body st env false mode daq
        = ([], some (Err.keyError daq)) := by
      simp [checkStatus_body, hg, bindRes]
    have : checkStatus st env mode (some (pre ++ daq :: post))
        = seqRes (runList (checkStatus_body st env false mode) pre)
            (runList (checkStatus_body st env false mode) (daq :: post)) := by
      simp [checkStatus, runList_append]
    rw [this, seqRes_snd_left_none hpre,
      runList_err_head (f := checkStatus_body st env false mode) hbody]

theorem C9_witness :
    getConfigProperty st0.config ("zz") ("board") = Except.error (Err.keyError ("zz"))
    ∧ (override_OV st0 3 (some (([] : List String) ++ ("zz") :: []))).2
        = some (Err.keyError ("zz")) :=
  And.intro (C9_missing_daq_keyerror st0 env0 ("zz") rfl rfl).1.1
    ((C9_missing_daq_keyerror st0 env0 ("zz") rfl rfl).2.1 3 [] [] rfl)

theorem seqRes_events_nil {a b : Res} (ha : a.1 = []) (hb : b.1 = []) :
    (seqRes a b).1 = [] := by
  obtain ⟨ae, aerr⟩ := a
  cases aerr with
  | none => simp [seqRes] at ha hb ⊢; simp [ha, hb]
  | some e => simpa [seqRes] using ha

theorem runList_events_nil {f : String → Res} (h : ∀ d : String, (f d).1 = []) :
    ∀ l : List String, (runList f l).1 = [] := by
  intro l
  induction l with
  | nil => rfl
  | cons d ds ih => exact seqRes_events_nil (h d) ih

/-- C2: for every daq acted on, `override_OV` sets `'V0Set'` to
`OV + v_offset_tofpet + v_bd`, with `v_offset_tofpet` from
`config['bias'][daq]` when that key exists and from
`config['bias']['default']` otherwise, and `v_bd` always from
`config['bias'][daq]`; with `daqs=None` it runs over every key of
`config['bias']` except `'default'`, and with an explicit list over every
listed daq. -/
theorem C2_override_OV_formula (st : State) (OV : Int) (daq : String)
    (c b ch voff vbd : Int) (h : Nat) (e : Entry)
    (hcfg : getConfigProperty st.config daq ("bias") = Except.ok (c, b, ch))
    (he : ConfigSection.lookup st.config.bias daq = some e)
    (hvbd : e.v_bd = some vbd)
    (hvo : e.v_offset_tofpet = some voff
      ∨ (e.v_offset_tofpet = none
          ∧ ∃ d : Entry, ConfigSection.lookup st.config.bias ("default") = some d
              ∧ d.v_offset_tofpet = some voff))
    (hh : handleAt st.handles c = Except.ok h) :
    override_OV st OV (some [daq])
        = ([Event.setParam h b ch ("V0Set") (PyVal.int (OV + voff + vbd))], none)
    ∧ override_OV st OV none
        = runList (override_OV_body st OV)
            (List.filter (fun d => ! (d == "default"))
              (ConfigSection.keys st.config.bias))
    ∧ (∀ ds : List String,
        override_OV st OV (some ds) = runList (override_OV_body st OV) ds) := by
  have hV : computeV st.config OV daq = Except.ok (OV + voff + vbd) := by
    rcases hvo with hvo | ⟨hnone, d, hd, hdvo⟩
    · have htry : tryV st.config OV daq = Except.ok (OV + voff + vbd) := by
        simp [tryV, bindE, keyE, he, hvo, hvbd]
      simp [computeV, htry]
    · have htry : tryV st.config OV daq
          = Except.error (Err.keyError ("v_offset_tofpet")) := by
        simp [tryV, bindE, keyE, he, hnone]
      have hfb : fallbackV st.config OV daq = Except.ok (OV + voff + vbd) := by
        simp [fallbackV, bindE, keyE, hd, hdvo, he, hvbd]
      simp [computeV, htry, hfb]
  refine ⟨?_, ?_, fun ds => rfl⟩
  · have hone : override_OV st OV (some [daq]) = override_OV_body st OV daq := by
      show runList (override_OV_body st OV) [daq] = override_OV_body st OV daq
      exact runList_singleton (override_OV_body st OV) daq
    rw [hone]
    simp [override_OV_body, hcfg, hV, hh, bindRes, okRes]
  · show runList (fun daq => if daq = "default" then okRes []
        else override_OV_body st OV daq) (ConfigSection.keys st.config.bias) = _
    exact runList_skip_default (override_OV_body st OV) _

theorem C2_witness :
    override_OV st0 1 (some [("m1x1")])
      = ([Event.setParam 5 1 2 ("V0Set") (PyVal.int (1 + 3 + 4))], none) :=
  (C2_override_OV_formula st0 1 ("m1x1") 0 1 2 3 4 5 entM rfl rfl rfl
    (Or.inl rfl) rfl).1

theorem switchHV_body_unknown_events (st : State) (mode daq : String)
    (h1 : mode ≠ "off") (h2 : mode ≠ "idle") (h3 : mode ≠ "operation")
    (h4 : mode ≠ "on") : (switchHV_body st mode daq).1 = [] := by
  cases hg : getConfigProperty st.config daq ("bias") with
  | error e => simp [switchHV_body, hg, bindRes]
  | ok t => simp [switchHV_body, hg, bindRes, h1, h2, h3, h4, okRes]

/-- C3: per daq, `switchHV` behaves by mode as: `'off'` sets `'Pw'` to
`False`; `'idle'` first runs `override_OV(-10, [daq])` then sets `'Pw'` to
`True`; `'operation'` first runs
`override_OV(config['bias']['default']['ov'], [daq])` then sets `'Pw'` to
`True`; `'on'` sets `'Pw'` to `True`; any other mode string issues no
hardware calls at all. -/
theorem C3_switchHV_modes (st : State) (daq : String) (c b ch ov : Int)
    (h : Nat) (e : Entry)
    (hcfg : getConfigProperty st.config daq ("bias") = Except.ok (c, b, ch))
    (hh : handleAt st.handles c = Except.ok h)
    (he : ConfigSection.lookup st.config.bias daq = some e)
    (hov : defaultOv st.config = Except.ok ov) :
    switchHV st ("off") (some [daq])
        = ([Event.setParam h b ch ("Pw") (PyVal.bool false)], none)
    ∧ switchHV st ("idle") (some [daq])
        = seqRes (override_OV st (-10) (some [daq]))
            (okRes [Event.setParam h b ch ("Pw") (PyVal.bool true)])
    ∧ switchHV st ("operation") (some [daq])
        = seqRes (override_OV st ov (some [daq]))
            (okRes [Event.setParam h b ch ("Pw") (PyVal.bool true)])
    ∧ switchHV st ("on") (some [daq])
        = ([Event.setParam h b ch ("Pw") (PyVal.bool true)], none)
    ∧ (∀ mode : String, ∀ daqs : Option (List String),
        mode ≠ "off" → mode ≠ "idle" → mode ≠ "operation" → mode ≠ "on" →
        (switchHV st mode daqs).1 = []) := by
  have hsingle : ∀ mode : String,
      switchHV st mode (some [daq]) = switchHV_body st mode daq := by
    intro mode
    show runList (fun d => if (ConfigSection.lookup st.config.bias d).isSome
        then switchHV_body st mode d else okRes []) [daq] = _
    rw [runList_singleton]
    simp [he]
  refine ⟨?_, ?_, ?_, ?_, ?_⟩
  · rw [hsingle]
    simp [switchHV_body, hcfg, hh, bindRes, okRes]
  · rw [hsingle]
    simp [switchHV_body, hcfg, hh, bindRes, okRes]
  · rw [hsingle]
    simp [switchHV_body, hcfg, hh, hov, bindRes, bindE, okRes]
  · rw [hsingle]
    simp [switchHV_body, hcfg, hh, bindRes, okRes]
  · intro mode daqs h1 h2 h3 h4
    cases daqs with
    | none =>
        apply runList_events_nil
        intro d
        by_cases hd : d = "default"
        · simp [hd, okRes]
        · simp [hd, switchHV_body_unknown_events st mode d h1 h2 h3 h4]
    | some ds =>
        apply runList_events_nil
        intro d
        by_cases hd : (ConfigSection.lookup st.config.bias d).isSome
        · simp [hd, switchHV_body_unknown_events st mode d h1 h2 h3 h4]
        · simp [hd, okRes]

theorem C3_witness :
    switchHV st0 ("off") (some [("m1x1")])
        = ([Event.setParam 5 1 2 ("Pw") (PyVal.bool false)], none)
    ∧ (switchHV st0 ("weird") none).1 = [] :=
  And.intro
    (C3_switchHV_modes st0 ("m1x1") 0 1 2 3 5 entM rfl rfl rfl rfl).1
    ((C3_switchHV_modes st0 ("m1x1") 0 1 2 3 5 entM rfl rfl rfl rfl).2.2.2.2
      ("weird") none (by decide) (by decide) (by decide) (by decide))

/-- C10: every operation invoked with `daqs=None` skips the entry keyed
`'default'` of the relevant config section and acts on every other key of
that section in order; when `'default'` is passed inside an explicit daqs
list it is not skipped (for `switchLV`/`switchHV`, provided `'default'` is
a key of the section, since those guard on membership). -/
theorem C10_default_skipping (st : State) (env : Env) (pw : Bool) (OV : Int)
    (v : Option Int) (mode mode2 p : String) (sec : ConfigSection)
    (hsec : Config.sectionOf st.config mode = Except.ok sec)
    (hdb : (ConfigSection.lookup st.config.board ("default")).isSome = true)
    (hds : (ConfigSection.lookup st.config.bias ("default")).isSome = true) :
    (switchLV st pw none
        = runList (switchLV_body st pw)
            (List.filter (fun d => ! (d == "default"))
              (ConfigSection.keys st.config.board))
      ∧ override_OV st OV none
        = runList (override_OV_body st OV)
            (List.filter (fun d => ! (d == "default"))
              (ConfigSection.keys st.config.bias))
      ∧ switchHV st mode2 none
        = runList (switchHV_body st mode2)
            (List.filter (fun d => ! (d == "default"))
              (ConfigSection.keys st.config.bias))
      ∧ showChannelInfo st env mode none
        = runList (showChannelInfo_body st env mode)
            (List.filter (fun d => ! (d == "default")) (ConfigSection.keys sec))
      ∧ showChannelParameter st env p mode none
        = runList (showChannelParameter_body st env p mode)
            (List.filter (fun d => ! (d == "default")) (ConfigSection.keys sec))
      ∧ setLV st v none
        = runList (setLV_body st v)
            (List.filter (fun d => ! (d == "default"))
              (ConfigSection.keys st.config.board))
      ∧ checkStatus st env mode none
        = runList (checkStatus_body st env true mode)
            (List.filter (fun d => ! (d == "default")) (ConfigSection.keys sec)))
    ∧ (override_OV st OV (some [("default")]) = override_OV_body st OV ("default")
      ∧ setLV st v (some [("default")]) = setLV_body st v ("default")
      ∧ showChannelInfo st env mode (some [("default")])
        = showChannelInfo_body st env mode ("default")
      ∧ showChannelParameter st env p mode (some [("default")])
        = showChannelParameter_body st env p mode ("default")
      ∧ checkStatus st env mode (some [("default")])
        = checkStatus_body st env false mode ("default")
      ∧ switchLV st pw (some [("default")]) = switchLV_body st pw ("default")
      ∧ switchHV st mode2 (some [("default")]) = switchHV_body st mode2 ("default")) := by
  constructor
  · refine ⟨?_, ?_, ?_, ?_, ?_, ?_, ?_⟩
    · exact runList_skip_default (switchLV_body st pw) _
    · exact runList_skip_default (override_OV_body st OV) _
    · exact runList_skip_default (switchHV_body st mode2) _
    · show bindRes (Config.sectionOf st.config mode) _ = _
      rw [hsec]
      exact runList_skip_default (showChannelInfo_body st env mode) _
    · show bindRes (Config.sectionOf st.config mode) _ = _
      rw [hsec]
      exact runList_skip_default (showChannelParameter_body st env p mode) _
    · exact runList_skip_default (setLV_body st v) _
    · show bindRes (Config.sectionOf st.config mode) _ = _
      rw [hsec]
      exact runList_skip_default (checkStatus_body st env true mode) _
  · refine ⟨?_, ?_, ?_, ?_, ?_, ?_, ?_⟩
    · exact runList_singleton (override_OV_body st OV) _
    · exact runList_singleton (setLV_body st v) _
    · exact runList_singleton (showChannelInfo_body st env mode) _
    · exact runList_singleton (showChannelParameter_body st env p mode) _
    · exact runList_singleton (checkStatus_body st env false mode) _
    · show runList (fun daq => if (ConfigSection.lookup st.config.board daq).isSome
          then switchLV_body st pw daq
          else okRes [Event.print (moduleMissingMsg daq)]) [("default")] = _
      rw [runList_singleton]
      simp [hdb]
    · show runList (fun daq => if (ConfigSection.lookup st.config.bias daq).isSome
          then switchHV_body st mode2 daq else okRes []) [("default")] = _
      rw [runList_singleton]
      simp [hds]

theorem C10_witness :
    switchLV st0 true (some [("default")]) = switchLV_body st0 true ("default")
    ∧ checkStatus st0 env0 ("bias") none
      = runList (checkStatus_body st0 env0 true ("bias"))
          (List.filter (fun d => ! (d == "default"))
            (ConfigSection.keys cfg0.bias)) :=
  And.intro
    (C10_default_skipping st0 env0 true 0 none ("bias") ("off") ("Pw")
      cfg0.bias rfl rfl rfl).2.2.2.2.2.2.1
    (C10_default_skipping st0 env0 true 0 none ("bias") ("off") ("Pw")
      cfg0.bias rfl rfl rfl).1.2.2.2.2.2.2

theorem check_status_loop_spec (daq : String) (l : List Int) : ∀ cnt : Nat,
    check_status_loop daq cnt l
      = List.flatMap (List.range l.length)
          (fun i => msgEvents daq (cnt + i, l.getD i 0)) := by
  induction l with
  | nil => intro cnt; simp [check_status_loop]
  | cons el rest ih =>
      intro cnt
      rw [show check_status_loop daq cnt (el :: rest)
          = msgEvents daq (cnt, el) ++ check_status_loop daq (cnt + 1) rest from rfl,
        ih (cnt + 1)]
      rw [show (el :: rest).length = rest.length + 1 from rfl,
        List.range_succ_eq_map, List.flatMap_cons, List.flatMap_map]
      have hfun : (fun a : Nat => msgEvents daq (cnt + a.succ, (el :: rest).getD a.succ 0))
          = (fun i => msgEvents daq (cnt + 1 + i, rest.getD i 0)) := by
        funext i
        simp only [Nat.succ_eq_add_one, List.getD_cons_succ]
        exact congrArg (fun m => msgEvents daq (m, rest.getD i 0)) (by omega)
      rw [hfun]
      simp

/-- C5: status reporting is a static table lookup: per daq checked,
`checkStatus` prints the working-correctly message exactly when the
retrieved `'Status'` value is an int; otherwise, each index `i` of the
status list whose element `v` has an entry `(i, v)` in `MESSAGES`
contributes that message formatted with the daq name, and a position
absent from the table contributes nothing. -/
theorem C5_checkStatus_table (st : State) (env : Env) (mode daq : String)
    (c b ch : Int) (h : Nat)
    (hcfg : getConfigProperty st.config daq mode = Except.ok (c, b, ch))
    (hh : handleAt st.handles c = Except.ok h) :
    (∀ n : Int, env.get h b ch ("Status") = PyVal.int n →
      checkStatus st env mode (some [daq])
        = ([Event.getParam h b ch ("Status"), Event.print (workingMsg daq)], none))
    ∧ (∀ l : List Int, env.get h b ch ("Status") = PyVal.list l →
      checkStatus st env mode (some [daq])
        = (Event.getParam h b ch ("Status") :: check_status_loop daq 0 l, none))
    ∧ (∀ l : List Int, check_status_loop daq 0 l
        = List.flatMap (List.range l.length)
            (fun i => msgEvents daq (i, l.getD i 0))) := by
  have hsingle : checkStatus st env mode (some [daq])
      = checkStatus_body st env false mode daq :=
    runList_singleton (checkStatus_body st env false mode) daq
  refine ⟨?_, ?_, ?_⟩
  · intro n hn
    rw [hsingle]
    simp [checkStatus_body, hcfg, hh, bindRes, hn, statusRes, okRes,
      seqRes, workingMsg]
  · intro l hl
    rw [hsingle]
    simp [checkStatus_body, hcfg, hh, bindRes, hl, statusRes, okRes, seqRes]
  · intro l
    simpa using check_status_loop_spec daq l 0

theorem C5_witness :
    checkStatus st0 env0 ("bias") (some [("m1x1")])
      = (Event.getParam 5 1 2 ("Status") :: check_status_loop ("m1x1") 0 [1, 0], none)
    ∧ check_status_loop ("m1x1") 0 [1, 0]
      = [Event.print ("The board m1x1 is in power-fail status")] :=
  And.intro
    ((C5_checkStatus_table st0 env0 ("bias") ("m1x1") 0 1 2 5 rfl rfl).2.1
      [1, 0] rfl)
    (by decide)

theorem bindRes_external {α : Type} {x : Except Err α} {f : α → Res}
    (hf : ∀ a : α, ((f a).1.all Event.externalB) = true) :
    ((bindRes x f).1.all Event.externalB) = true := by
  cases x with
  | error e => rfl
  | ok a => exact hf a

theorem seqRes_external {a b : Res}
    (ha : (a.1.all Event.externalB) = true)
    (hb : (b.1.all Event.externalB) = true) :
    ((seqRes a b).1.all Event.externalB) = true := by
  obtain ⟨ae, aerr⟩ := a
  cases aerr with
  | none =>
      simp only [seqRes, List.all_append, Bool.and_eq_true]
      exact And.intro ha hb
  | some e => exact ha

theorem runList_external {f : String → Res}
    (hf : ∀ d : String, ((f d).1.all Event.externalB) = true) :
    ∀ l : List String, ((runList f l).1.all Event.externalB) = true := by
  intro l
  induction l with
  | nil => rfl
  | cons d ds ih => exact seqRes_external (hf d) ih

theorem switchLV_body_external (st : State) (pw : Bool) (daq : String) :
    ((switchLV_body st pw daq).1.all Event.externalB) = true := by
  unfold switchLV_body
  exact bindRes_external (fun t => bindRes_external (fun h => rfl))

theorem switchLV_external (st : State) (pw : Bool) (daqs : Option (List String)) :
    ((switchLV st pw daqs).1.all Event.externalB) = true := by
  cases daqs with
  | none =>
      apply runList_external
      intro d
      by_cases hd : d = "default"
      · simp [hd, okRes]
      · simp only [hd, if_false]
        exact switchLV_body_external st pw d
  | some ds =>
      apply runList_external
      intro d
      by_cases hd : (ConfigSection.lookup st.config.board d).isSome
      · simp only [hd, if_true]
        exact switchLV_body_external st pw d
      · simp [hd, okRes, Event.externalB]

theorem override_OV_body_external (st : State) (OV : Int) (daq : String) :
    ((override_OV_body st OV daq).1.all Event.externalB) = true := by
  unfold override_OV_body
  exact bindRes_external (fun t =>
    bindRes_external (fun V => bindRes_external (fun h => rfl)))

theorem override_OV_external (st : State) (OV : Int) (daqs : Option (List String)) :
    ((override_OV st OV daqs).1.all Event.externalB) = true := by
  cases daqs with
  | none =>
      apply runList_external
      intro d
      by_cases hd : d = "default"
      · simp [hd, okRes]
      · simp only [hd, if_false]
        exact override_OV_body_external st OV d
  | some ds => exact runList_external (fun d => override_OV_body_external st OV d) ds

theorem switchHV_body_external (st : State) (mode daq : String) :
    ((switchHV_body st mode daq).1.all Event.externalB) = true := by
  unfold switchHV_body
  apply bindRes_external
  intro t
  by_cases h1 : mode = "off"
  · rw [if_pos h1]
    exact bindRes_external (fun h => rfl)
  · rw [if_neg h1]
    by_cases h2 : mode = "idle"
    · rw [if_pos h2]
      exact seqRes_external (override_OV_external st (-10) (some [daq]))
        (bindRes_external (fun h => rfl))
    · rw [if_neg h2]
      by_cases h3 : mode = "operation"
      · rw [if_pos h3]
        apply bindRes_external
        intro ov
        exact seqRes_external (override_OV_external st ov (some [daq]))
          (bindRes_external (fun h => rfl))
      · rw [if_neg h3]
        by_cases h4 : mode = "on"
        · rw [if_pos h4]
          exact bindRes_external (fun h => rfl)
        · rw [if_neg h4]
          rfl

theorem switchHV_external (st : State) (mode : String) (daqs : Option (List String)) :
    ((switchHV st mode daqs).1.all Event.externalB) = true := by
  cases daqs with
  | none =>
      apply runList_external
      intro d
      by_cases hd : d = "default"
      · simp [hd, okRes]
      · simp only [hd, if_false]
        exact switchHV_body_external st mode d
  | some ds =>
      apply runList_external
      intro d
      by_cases hd : (ConfigSection.lookup st.config.bias d).isSome
      · simp only [hd, if_true]
        exact switchHV_body_external st mode d
      · simp [hd, okRes]

theorem map_print_external (xs : List String) :
    ((List.map Event.print xs).all Event.externalB) = true := by
  induction xs with
  | nil => rfl
  | cons x r ih =>
      simp only [List.map_cons, List.all_cons, Event.externalB, Bool.true_and]
      exact ih

theorem showChannelInfo_body_external (st : State) (env : Env) (mode daq : String) :
    ((showChannelInfo_body st env mode daq).1.all Event.externalB) = true := by
  unfold showChannelInfo_body
  apply bindRes_external
  intro t
  apply bindRes_external
  intro h
  simp [okRes, List.all_append, Event.externalB,
    map_print_external (env.info h t.2.1 t.2.2)]

theorem showChannelInfo_external (st : State) (env : Env) (mode : String)
    (daqs : Option (List String)) :
    ((showChannelInfo st env mode daqs).1.all Event.externalB) = true := by
  cases daqs with
  | none =>
      apply bindRes_external
      intro sec
      apply runList_external
      intro d
      by_cases hd : d = "default"
      · simp [hd, okRes]
      · simp only [hd, if_false]
        exact showChannelInfo_body_external st env mode d
  | some ds =>
      exact runList_external (fun d => showChannelInfo_body_external st env mode d) ds

theorem showChannelParameter_body_external (st : State) (env : Env)
    (p mode daq : String) :
    ((showChannelParameter_body st env p mode daq).1.all Event.externalB) = true := by
  unfold showChannelParameter_body
  exact bindRes_external (fun t => bindRes_external (fun h => rfl))

theorem showChannelParameter_external (st : State) (env : Env) (p mode : String)
    (daqs : Option (List String)) :
    ((showChannelParameter st env p mode daqs).1.all Event.externalB) = true := by
  cases daqs with
  | none =>
      apply bindRes_external
      intro sec
      apply runList_external
      intro d
      by_cases hd : d = "default"
      · simp [hd, okRes]
      · simp only [hd, if_false]
        exact showChannelParameter_body_external st env p mode d
  | some ds =>
      exact runList_external
        (fun d => showChannelParameter_body_external st env p mode d) ds

theorem getChannelParameter_external (st : State) (env : Env) (p mode daq : String) :
    (((getChannelParameter st env p mode daq).1).all Event.externalB) = true := by
  cases hg : getConfigProperty st.config daq mode with
  | error e => simp [getChannelParameter, hg]
  | ok t =>
      cases hh : handleAt st.handles t.1 with
      | error e => simp [getChannelParameter, hg, hh]
      | ok h => simp [getChannelParameter, hg, hh, Event.externalB]

theorem setLV_body_external (st : State) (v : Option Int) (daq : String) :
    ((setLV_body st v daq).1.all Event.externalB) = true := by
  unfold setLV_body
  apply bindRes_external
  intro t
  cases v with
  | none => exact bindRes_external (fun h => bindRes_external (fun dv => rfl))
  | some vv => exact bindRes_external (fun h => rfl)

theorem setLV_external (st : State) (v : Option Int) (daqs : Option (List String)) :
    ((setLV st v daqs).1.all Event.externalB) = true := by
  cases daqs with
  | none =>
      apply runList_external
      intro d
      by_cases hd : d = "default"
      · simp [hd, okRes]
      · simp only [hd, if_false]
        exact setLV_body_external st v d
  | some ds => exact runList_external (fun d => setLV_body_external st v d) ds

theorem msgEvents_external (daq : String) (k : Nat × Int) :
    ((msgEvents daq k).all Event.externalB) = true := by
  unfold msgEvents
  cases lookupMsg k with
  | some m => rfl
  | none => rfl

theorem check_status_loop_external (daq : String) :
    ∀ cnt : Nat, ∀ l : List Int,
      ((check_status_loop daq cnt l).all Event.externalB) = true := by
  intro cnt l
  induction l generalizing cnt with
  | nil => rfl
  | cons el rest ih =>
      simp only [check_status_loop, List.all_append, Bool.and_eq_true]
      exact And.intro (msgEvents_external daq (cnt, el)) (ih (cnt + 1))

theorem statusRes_external (daq : String) (withValue : Bool) (v : PyVal) :
    ((statusRes daq withValue v).1.all Event.externalB) = true := by
  cases v with
  | int n =>
      cases withValue with
      | true => rfl
      | false => rfl
  | list l => exact check_status_loop_external daq 0 l
  | str s => rfl
  | bool b => rfl

theorem checkStatus_body_external (st : State) (env : Env) (withValue : Bool)
    (mode daq : String) :
    ((checkStatus_body st env withValue mode daq).1.all Event.externalB) = true := by
  unfold checkStatus_body
  apply bindRes_external
  intro t
  apply bindRes_external
  intro h
  exact seqRes_external rfl
    (statusRes_external daq withValue (env.get h t.2.1 t.2.2 ("Status")))

theorem checkStatus_external (st : State) (env : Env) (mode : String)
    (daqs : Option (List String)) :
    ((checkStatus st env mode daqs).1.all Event.externalB) = true := by
  cases daqs with
  | none =>
      apply bindRes_external
      intro sec
      apply runList_external
      intro d
      by_cases hd : d = "default"
      · simp [hd, okRes]
      · simp only [hd, if_false]
        exact checkStatus_body_external st env true mode d
  | some ds =>
      exact runList_external (fun d => checkStatus_body_external st env false mode d) ds

/-- C6: every public method other than `__init__` leaves `self.config`,
`self.handles` and `self.crates_maps` unchanged and writes no file or
other persistent store; its only effects are hardware-library calls and
printed output. -/
theorem C6_frame_no_persistence (st : State) (env : Env) (c : MethodCall) :
    (step st env c).2.2 = st
    ∧ ((step st env c).1.all Event.externalB) = true := by
  cases c with
  | switchLV pw daqs => exact And.intro rfl (switchLV_external st pw daqs)
  | override_OV OV daqs => exact And.intro rfl (override_OV_external st OV daqs)
  | switchHV mode daqs => exact And.intro rfl (switchHV_external st mode daqs)
  | showChannelInfo mode daqs =>
      exact And.intro rfl (showChannelInfo_external st env mode daqs)
  | showChannelParameter p mode daqs =>
      exact And.intro rfl (showChannelParameter_external st env p mode daqs)
  | getChannelParameter p mode daq =>
      exact And.intro rfl (getChannelParameter_external st env p mode daq)
  | setLV v daqs => exact And.intro rfl (setLV_external st v daqs)
  | checkStatus mode daqs => exact And.intro rfl (checkStatus_external st env mode daqs)

theorem initCalls_length (env : InitEnv) : ∀ i : Nat, ∀ l : List CrateConf,
    (initCalls env i l).length = l.length := by
  intro i l
  induction l generalizing i with
  | nil => rfl
  | cons c rest ih => simp [initCalls, ih (i + 1)]

theorem initHandles_length (env : InitEnv) : ∀ i : Nat, ∀ l : List CrateConf,
    (initHandles env i l).length = l.length := by
  intro i l
  induction l generalizing i with
  | nil => rfl
  | cons c rest ih => simp [initHandles, ih (i + 1)]

theorem initLoop_ok (env : InitEnv) : ∀ l : List CrateConf,
    (∀ c ∈ l, (env.sysType c.module).isSome = true
      ∧ (env.linkType c.linktype).isSome = true) →
    ∀ i : Nat, initLoop env i l = (initCalls env i l, Except.ok (initHandles env i l)) := by
  intro l
  induction l with
  | nil => intro _ i; rfl
  | cons c rest ih =>
      intro henum i
      obtain ⟨h1, h2⟩ := henum c (List.mem_cons_self c rest)
      obtain ⟨s, hs2⟩ := Option.isSome_iff_exists.mp h1
      obtain ⟨lt, hl2⟩ := Option.isSome_iff_exists.mp h2
      have ihr := ih (fun d hd => henum d (List.mem_cons_of_mem c hd)) (i + 1)
      simp [initLoop, initCalls, initHandles, hs2, hl2, ihr, Except.map]

theorem mapLoop_ok (env : InitEnv) : ∀ hs : List Nat,
    (∀ hnd ∈ hs, (env.crateMap hnd).toOption.isSome = true) →
    mapLoop env hs = (List.map Event.getCrateMap hs, mapsOf env hs, none) := by
  intro hs
  induction hs with
  | nil => intro _; rfl
  | cons x rest ih =>
      intro hok
      have h1 := hok x (List.mem_cons_self x rest)
      obtain ⟨m, hm⟩ : ∃ m : Nat, env.crateMap x = Except.ok m := by
        cases hcm : env.crateMap x with
        | ok m => exact ⟨m, rfl⟩
        | error e => rw [hcm] at h1; simp [Except.toOption] at h1
      have ihr := ih (fun d hd => hok d (List.mem_cons_of_mem x hd))
      simp [mapLoop, hm, ihr, mapsOf]

theorem mapLoop_fail (env : InitEnv) (hbad : Nat) (post : List Nat) (msg : String)
    (hfail : env.crateMap hbad = Except.error msg) : ∀ pre : List Nat,
    (∀ hnd ∈ pre, (env.crateMap hnd).toOption.isSome = true) →
    mapLoop env (pre ++ hbad :: post)
      = (List.map Event.getCrateMap pre ++ [Event.getCrateMap hbad],
        mapsOf env pre, some msg) := by
  intro pre
  induction pre with
  | nil => intro _; simp [mapLoop, hfail, mapsOf]
  | cons x rest ih =>
      intro hok
      have h1 := hok x (List.mem_cons_self x rest)
      obtain ⟨m, hm⟩ : ∃ m : Nat, env.crateMap x = Except.ok m := by
        cases hcm : env.crateMap x with
        | ok m => exact ⟨m, rfl⟩
        | error e => rw [hcm] at h1; simp [Except.toOption] at h1
      have ihr := ih (fun d hd => hok d (List.mem_cons_of_mem x hd))
      simp [mapLoop, hm, ihr, mapsOf]

/-- C7: the constructor calls `init_system` once per entry of
`config['crates']`, in order, with that entry's converted module and
linktype and its address, username and password, appends the returned
handles to `self.handles` in the same order, and then retrieves one crate
map per handle in the same order into `self.crates_maps`. -/
theorem C7_init_sequence (env : InitEnv) (cfg : Config)
    (henum : ∀ c ∈ cfg.crates, (env.sysType c.module).isSome = true
        ∧ (env.linkType c.linktype).isSome = true)
    (hmap : ∀ hnd ∈ initHandles env 0 cfg.crates,
        (env.crateMap hnd).toOption.isSome = true) :
    initManager env cfg
      = (initCalls env 0 cfg.crates
          ++ List.map Event.getCrateMap (initHandles env 0 cfg.crates),
        Except.ok (State.mk cfg (initHandles env 0 cfg.crates)
          (mapsOf env (initHandles env 0 cfg.crates))))
    ∧ (initCalls env 0 cfg.crates).length = cfg.crates.length
    ∧ (initHandles env 0 cfg.crates).length = cfg.crates.length := by
  refine ⟨?_, initCalls_length env 0 cfg.crates, initHandles_length env 0 cfg.crates⟩
  simp [initManager, initLoop_ok env cfg.crates henum 0,
    mapLoop_ok env (initHandles env 0 cfg.crates) hmap]

theorem C7_witness :
    initManager ienvOk cfg0
      = ([Event.initSys 2 1 ("addr0") ("user0") ("pass0"), Event.getCrateMap 40],
        Except.ok (State.mk cfg0 [40] [140])) :=
  (C7_init_sequence ienvOk cfg0 (by decide) (by decide)).1

/-- C8: if `get_crate_map` raises a `CAENHVError` while the constructor is
building `self.crates_maps`, the error is caught and printed, no
`init_system` or `get_crate_map` call is retried, `self.crates_maps` holds
only the maps retrieved before the failure, and construction completes. -/
theorem C8_crate_map_error_caught (env : InitEnv) (cfg : Config)
    (henum : ∀ c ∈ cfg.crates, (env.sysType c.module).isSome = true
        ∧ (env.linkType c.linktype).isSome = true)
    (pre : List Nat) (hbad : Nat) (post : List Nat) (msg : String)
    (hsplit : initHandles env 0 cfg.crates = pre ++ hbad :: post)
    (hpre : ∀ hnd ∈ pre, (env.crateMap hnd).toOption.isSome = true)
    (hfail : env.crateMap hbad = Except.error msg) :
    initManager env cfg
      = (initCalls env 0 cfg.crates
          ++ (List.map Event.getCrateMap pre ++ [Event.getCrateMap hbad])
          ++ [Event.print (gotErrorMsg msg)],
        Except.ok (State.mk cfg (initHandles env 0 cfg.crates)
          (mapsOf env pre))) := by
  have hml := mapLoop_fail env hbad post msg hfail pre hpre
  simp [initManager, initLoop_ok env cfg.crates henum 0, hsplit, hml,
    List.append_assoc]

theorem C8_witness :
    initManager ienv0 cfg2
      = ([Event.initSys 2 1 ("addr0") ("user0") ("pass0"),
          Event.initSys 2 1 ("addr1") ("user1") ("pass1"),
          Event.getCrateMap 40, Event.getCrateMap 41,
          Event.print (gotErrorMsg ("boom"))],
        Except.ok (State.mk cfg2 [40, 41] [140])) :=
  C8_crate_map_error_caught ienv0 cfg2 (by decide) [40] 41 [] ("boom")
    (by decide) (by decide) rfl

end SndCaen
